import Mathlib

/-!
Shallow embedding of the DNS forwarding proxy (`dnslib/proxy.py`) and the
bidirectional mapping utility (`dnslib/bimap.py`), together with theorems
settling the specification claims.

Modelling conventions:
* Byte strings are `List Nat` (each element a byte value).
* A socket's receive side is modelled by the list of byte chunks that
  successive `recv`/`recvfrom` calls return while the peer keeps the
  connection open; once that list is exhausted, a TCP `recv` returns the
  empty chunk forever (orderly close), and a UDP `recvfrom` blocks forever
  (no datagram ever arrives).  No `settimeout` call appears anywhere in
  `proxy.py`, so sockets use the blocking default.
* A Python function that loops forever or blocks forever on some input is
  total in the model: it returns an explicit `diverge`/`block` outcome on
  exactly those inputs.
-/

namespace Proxy

/-- The transport a client request arrived on (`handler.protocol` in the
Python code, the string `'udp'` or `'tcp'`). -/
inductive Transport where
  | udp
  | tcp
deriving DecidableEq, Repr

/-- Big-endian 16-bit decode of the first two list elements:
`struct.unpack("!H", response[:2])[0]`.  Caller guarantees the list has at
least two elements (otherwise Python raises `struct.error`, handled
separately). -/
def unpack16 (l : List Nat) : Nat :=
  l.getD 0 0 * 256 + l.getD 1 0

/-- Big-endian 16-bit encode: `struct.pack("!H", n)`, two bytes.  Python
raises for `n ≥ 65536`; the `% 65536` keeps the model total, and every
theorem that relies on the encoding stays below that bound. -/
def pack16 (n : Nat) : List Nat :=
  [n % 65536 / 256, n % 256]

/-- Outcome of the receive side of `send_tcp`. -/
inductive TCPOutcome where
  /-- The `while` loop finished; `resp` is the accumulated `response`. -/
  | ok (resp : List Nat)
  /-- `struct.unpack("!H", response[:2])` raised `struct.error`: the first
  `recv` returned fewer than two bytes. -/
  | structFault
  /-- The peer closed the connection before `len(response) - 2 >= length`:
  every further `recv` returns the empty byte string, `response` never
  grows, and the Python `while` loop spins forever.  This constructor marks
  exactly the inputs on which `send_tcp` never returns. -/
  | diverge
deriving DecidableEq, Repr

/-- The accumulation loop of `send_tcp`:
`while len(response) - 2 < length: response += sock.recv(8192)`.
`chunks` are the byte chunks the remaining `recv` calls will return before
the peer closes; when they run out the loop can no longer make progress
(see `TCPOutcome.diverge`). -/
def recvLoop : List (List Nat) → List Nat → Nat → TCPOutcome
  | chunks, response, length =>
    if length + 2 ≤ response.length then .ok response
    else
      match chunks with
      | [] => .diverge
      | c :: rest => recvLoop rest (response ++ c) length

/-- `send_tcp(data, host, port)` from `proxy.py`.  The first component is
the byte string written to the upstream socket (`sock.sendall(data)` —
exactly `data`, no framing added here); the second is the receive outcome
built from the chunk sequence `chunks`. -/
def send_tcp (data : List Nat) (chunks : List (List Nat)) :
    List Nat × TCPOutcome :=
  (data,
    let first := chunks.headD []
    if first.length < 2 then .structFault
    else recvLoop chunks.tail first (unpack16 first))

/-- Outcome of the receive side of `send_udp`.  `timeout` is listed because
the specification's transport taxonomy includes `TransportTimeout`; the
model of the code never produces it (see `send_udp`). -/
inductive UDPOutcome where
  /-- `recvfrom` returned a datagram. -/
  | ok (resp : List Nat)
  /-- No datagram ever arrives.  `send_udp` sets no socket timeout
  (`settimeout` is never called in `proxy.py`), so the blocking `recvfrom`
  call never returns: the call hangs forever. -/
  | block
  /-- A `socket.timeout` raised by `recvfrom` — the outcome the
  specification prescribes for a silent upstream, never produced by the
  code as written. -/
  | timeout
deriving DecidableEq, Repr

/-- A run of `send_udp`: the datagram written by `sock.sendto`, the receive
outcome, and the number of `recvfrom` invocations. -/
structure UDPRun where
  sent : List Nat
  outcome : UDPOutcome
  recvCalls : Nat
deriving DecidableEq, Repr

/-- `send_udp(data, host, port)` from `proxy.py`: `sock.sendto(data, ...)`
followed by a single `response, _ = sock.recvfrom(8192)`.  `incoming` is
the sequence of datagrams that will arrive at the socket; only the first is
ever read.  With no datagram the blocking `recvfrom` hangs forever. -/
def send_udp (data : List Nat) (incoming : List (List Nat)) : UDPRun :=
  match incoming with
  | d :: _ => ⟨data, .ok d, 1⟩
  | [] => ⟨data, .block, 1⟩

/-! ### The DNS codec, modelled from the spec

`DNSRecord.parse`, `DNSRecord.reply` and `RCODE` live in `dnslib/dns.py`,
which is not part of the supplied sources; the spec describes only the
interface the proxy needs (`parse(bytes) -> Message | ParseError`,
`Message.id`, a settable response-code field, and `reply` preserving the
request's id and query section). -/

/-- A structured DNS message as the proxy sees it: a 16-bit transaction
id `id`, a response code `rcode`, the query section and the answer
section. -/
structure Msg where
  id : Nat
  rcode : Nat
  question : List Nat
  answer : List Nat
deriving DecidableEq, Repr

/-- Modelled from the spec: `DNSRecord.parse` (`dnslib/dns.py`, outside the
supplied sources).  The spec gives only `parse(bytes) -> Message |
ParseError` with `Message.id` a 16-bit identifier; we model the minimal
wire form — a 12-byte DNS header whose first two bytes carry the id
big-endian and whose fourth byte's low nibble carries the rcode, followed
by the question section — and a `ParseError` (`none`) on anything shorter
than a header. -/
def parse (bytes : List Nat) : Option Msg :=
  if 12 ≤ bytes.length then
    some ⟨unpack16 bytes, bytes.getD 3 0 % 16, bytes.drop 12, []⟩
  else none

/-- Modelled from the spec: `request.reply()` (`dnslib/dns.py`, outside the
supplied sources) — "build a reply from `request` (preserving its id and
query section)", with no answer records and a clear response code. -/
def msgReply (request : Msg) : Msg :=
  ⟨request.id, 0, request.question, []⟩

/-- Modelled from the spec: `getattr(RCODE, 'NXDOMAIN')` — the standard
DNS response code 3 ("non-existent domain"), taken from the `RCODE` table
in `dnslib/dns.py` (outside the supplied sources). -/
def NXDOMAIN : Nat := 3

/-! ### ProxyResolver.resolve -/

/-- Outcome of `request.send(self.address, self.port, ...)` inside
`ProxyResolver.resolve` — one upstream round trip, as seen by the
`try`/`except` block: the response bytes, a `socket.timeout`, or any other
socket fault. -/
inductive RoundTrip where
  | ok (resp : List Nat)
  | timeout
  | socketFault
deriving DecidableEq, Repr

/-- What a call to `ProxyResolver.resolve` produces: a reply `Msg`, or an
uncaught exception.  Only `socket.timeout` is caught in the code; a
`DNSError` from `DNSRecord.parse` and any other socket fault both escape
`resolve`. -/
inductive ResolveOutcome where
  | ok (reply : Msg)
  /-- `DNSRecord.parse(proxy_r)` raised; `socket.timeout` does not match,
  so the exception propagates to the caller. -/
  | parseFault
  /-- `request.send` raised a non-timeout socket error; it propagates. -/
  | socketFault
deriving DecidableEq, Repr

/-- The round trip `resolve` performs: `request.send` over UDP when
`handler.protocol == 'udp'`, over TCP otherwise. -/
def pickRT (proto : Transport) (rtUDP rtTCP : RoundTrip) : RoundTrip :=
  match proto with
  | .udp => rtUDP
  | .tcp => rtTCP

/-- The reply `resolve` synthesizes in its `except socket.timeout` branch:
`reply = request.reply(); reply.header.rcode = getattr(RCODE, 'NXDOMAIN')`. -/
def timeoutReply (request : Msg) : Msg :=
  { msgReply request with rcode := NXDOMAIN }

/-- `ProxyResolver.resolve(request, handler)` from `proxy.py`.  The
upstream network is abstracted into the two possible round-trip outcomes
`rtUDP`/`rtTCP`; the handler contributes only its protocol. -/
def resolve (request : Msg) (proto : Transport) (rtUDP rtTCP : RoundTrip) :
    ResolveOutcome :=
  match pickRT proto rtUDP rtTCP with
  | .ok bytes =>
    match parse bytes with
    | some reply => .ok reply
    | none => .parseFault
  | .timeout => .ok (timeoutReply request)
  | .socketFault => .socketFault

/-! ### PassthroughDNSHandler.get_reply -/

/-- What a call to `PassthroughDNSHandler.get_reply` produces.  The
handler has no `try`/`except`, so every exception below escapes it. -/
inductive ReplyOutcome where
  /-- The handler returned `response` — the raw upstream bytes (for TCP,
  with upstream's own 2-byte length prefix already stripped). -/
  | ok (resp : List Nat)
  /-- `DNSRecord.parse(data)` raised on the inbound client bytes, before
  anything was sent upstream. -/
  | requestParseFault
  /-- `DNSRecord.parse(response)` raised on upstream's bytes, after the
  forward happened but before the handler returned. -/
  | replyParseFault
  /-- `send_tcp` raised `struct.error` on a short first `recv`. -/
  | tcpStructFault
  /-- `send_tcp` never returns (peer closed early, see
  `TCPOutcome.diverge`), so neither does `get_reply`. -/
  | tcpDiverge
  /-- `send_udp` never returns (no datagram, no timeout configured). -/
  | udpBlock
deriving DecidableEq, Repr

/-- A run of `PassthroughDNSHandler.get_reply`: the bytes written to the
upstream socket (`none` when execution never reached a send), and the
result. -/
structure HandlerRun where
  sentUpstream : Option (List Nat)
  result : ReplyOutcome
deriving DecidableEq, Repr

/-- `PassthroughDNSHandler.get_reply(data)` from `proxy.py`.  `data` are
the raw client bytes; `proto` is `self.protocol`; `udpIncoming` and
`tcpChunks` describe what the upstream socket would deliver on the
respective transport (only the branch actually taken is consulted).
`log_request`/`log_reply` only format strings and are invisible here. -/
def get_reply (data : List Nat) (proto : Transport)
    (udpIncoming : List (List Nat)) (tcpChunks : List (List Nat)) :
    HandlerRun :=
  match parse data with
  | none => ⟨none, .requestParseFault⟩
  | some _ =>
    match proto with
    | .tcp =>
      let framed := pack16 data.length ++ data
      let sent := (send_tcp framed tcpChunks).1
      match (send_tcp framed tcpChunks).2 with
      | .ok resp =>
        let response := resp.drop 2
        match parse response with
        | some _ => ⟨some sent, .ok response⟩
        | none => ⟨some sent, .replyParseFault⟩
      | .structFault => ⟨some sent, .tcpStructFault⟩
      | .diverge => ⟨some sent, .tcpDiverge⟩
    | .udp =>
      let run := send_udp data udpIncoming
      match run.outcome with
      | .ok response =>
        match parse response with
        | some _ => ⟨some run.sent, .ok response⟩
        | none => ⟨some run.sent, .replyParseFault⟩
      | .block => ⟨some run.sent, .udpBlock⟩
      -- `send_udp` never produces `.timeout` (theorem `send_udp_never_times_out`);
      -- this arm only completes the match.
      | .timeout => ⟨some run.sent, .udpBlock⟩

end Proxy

/-! ### Bimap (`dnslib/bimap.py`) -/

/-- First-match lookup in an association list.  This is how a Python
`dict` behaves when its keys are unique — which holds for every `dict`
by construction; the theorems below carry the uniqueness hypotheses
explicitly. -/
def dictLookup {α β : Type} [DecidableEq α] : List (α × β) → α → Option β
  | [], _ => none
  | (a, b) :: t, k => if k = a then some b else dictLookup t k

/-- `Bimap.__init__` state (`dnslib/bimap.py`): the exception-message
`name`, a copy of the `forward` code→text dict, and the comprehension
`reverse = {v: k for k, v in forward.items()}`. -/
structure Bimap where
  name : String
  forward : List (Nat × String)
  reverse : List (String × Nat)
deriving DecidableEq, Repr

/-- Build a `Bimap` from its forward dict, as `__init__` does. -/
def Bimap.build (name : String) (forward : List (Nat × String)) : Bimap :=
  ⟨name, forward, forward.map (fun p => (p.2, p.1))⟩

/-- `Bimap.__getitem__` (`bimap[code]`): forward lookup; `none` models
raising `self.error("...: Invalid forward lookup: ...")`. -/
def Bimap.getitem (b : Bimap) (k : Nat) : Option String :=
  dictLookup b.forward k

/-- `Bimap.__getattr__` (`bimap.text`): reverse lookup; `none` models
raising `self.error("...: Invalid reverse lookup: ...")`. -/
def Bimap.getattr (b : Bimap) (k : String) : Option Nat :=
  dictLookup b.reverse k

/-- `Bimap.get`: forward lookup defaulting to `default or str(k)` (Python's
`or` falls back to `str(k)` when `default` is `None`). -/
def Bimap.get (b : Bimap) (k : Nat) (default : Option String) : String :=
  (dictLookup b.forward k).getD (default.getD (toString k))

/-! ## Transport-layer lemmas -/

namespace Proxy

/-- When the peer closes before enough bytes arrived, the accumulation
loop of `send_tcp` never reaches its exit condition. -/
theorem recvLoop_diverge (chunks : List (List Nat)) :
    ∀ (response : List Nat) (length : Nat),
    response.length + (chunks.map List.length).sum < length + 2 →
    recvLoop chunks response length = .diverge := by
  induction chunks with
  | nil =>
    intro resp L h
    unfold recvLoop
    rw [if_neg (by simp at h; omega)]
  | cons c rest ih =>
    intro resp L h
    unfold recvLoop
    rw [if_neg (by simp at h; omega)]
    exact ih (resp ++ c) L (by simp at h ⊢; omega)

/-- When the chunk sequence carries at least `length + 2` bytes, the
accumulation loop finishes with a response that meets the threshold,
extends the bytes already read, and stays within what the peer sent. -/
theorem recvLoop_complete (chunks : List (List Nat)) :
    ∀ (response : List Nat) (length : Nat),
    length + 2 ≤ response.length + (chunks.map List.length).sum →
    ∃ r, recvLoop chunks response length = .ok r
      ∧ length + 2 ≤ r.length
      ∧ (∃ t, response ++ t = r)
      ∧ (∃ t, r ++ t = response ++ chunks.flatten) := by
  induction chunks with
  | nil =>
    intro resp L h
    simp only [List.map_nil, List.sum_nil, Nat.add_zero] at h
    refine ⟨resp, ?_, h, ⟨[], by simp⟩, ⟨[], by simp⟩⟩
    unfold recvLoop
    rw [if_pos h]
  | cons c rest ih =>
    intro resp L h
    by_cases hc : L + 2 ≤ resp.length
    · refine ⟨resp, ?_, hc, ⟨[], by simp⟩, ⟨c ++ rest.flatten, by simp⟩⟩
      unfold recvLoop
      rw [if_pos hc]
    · obtain ⟨r, h1, h2, ⟨t1, h3⟩, ⟨t2, h4⟩⟩ :=
        ih (resp ++ c) L (by simp at h ⊢; omega)
      refine ⟨r, ?_, h2, ⟨c ++ t1, by rw [← h3, List.append_assoc]⟩,
        ⟨t2, by rw [h4, List.flatten_cons, List.append_assoc]⟩⟩
      unfold recvLoop
      rw [if_neg hc]
      exact h1

end Proxy

/-! ## Claim theorems: transport helpers -/

namespace Proxy

/-- C4: The specification says that when the upstream TCP connection
closes before the declared length has been received, `send_tcp` terminates
and fails with a `TransportError`.  The code does the opposite: once the
first `recv` delivered at least two bytes, an early close makes every
further `recv` return the empty byte string and the `while` loop of
`send_tcp` spins forever — it neither terminates nor raises.  This theorem
exhibits the divergence for every early-closing chunk sequence. -/
theorem send_tcp_early_close_spins
    (data first : List Nat) (rest : List (List Nat))
    (h2 : 2 ≤ first.length)
    (hshort : first.length + (rest.map List.length).sum < unpack16 first + 2) :
    (send_tcp data (first :: rest)).2 = .diverge := by
  simp only [send_tcp, List.headD_cons, List.tail_cons]
  rw [if_neg (by omega)]
  exact recvLoop_diverge rest first (unpack16 first) hshort

/-- Witness for C4: a response declaring 5 payload bytes, of which only one
arrives before the peer closes; the model records the infinite loop. -/
theorem send_tcp_early_close_spins_w :
    (send_tcp [0, 0] [[0, 5, 1]]).2 = .diverge :=
  send_tcp_early_close_spins [0, 0] [0, 5, 1] [] (by decide) (by decide)

/-- The send side of `send_tcp` is the identity on its input:
`sock.sendall(data)` writes exactly `data`. -/
theorem send_tcp_sent (data : List Nat) (chunks : List (List Nat)) :
    (send_tcp data chunks).1 = data := rfl

/-- When the first read delivers at least the 2-byte prefix declaring
length `L`, `send_tcp` keeps accumulating partial receives until at least
`2 + L` bytes have arrived, and returns the accumulated response — an
extension of the first chunk, hence including its own 2-byte length
prefix — without exceeding the bytes the peer delivered.  This is the
positive half of the behavior claimed for `send_tcp`; see
`send_tcp_split_prefix_fault` for the deliveries it does not cover. -/
theorem send_tcp_reassembles
    (data first : List Nat) (rest : List (List Nat))
    (h2 : 2 ≤ first.length)
    (hav : unpack16 first + 2 ≤ first.length + (rest.map List.length).sum) :
    ∃ r, send_tcp data (first :: rest) = (data, .ok r)
      ∧ unpack16 first + 2 ≤ r.length
      ∧ (∃ t, first ++ t = r)
      ∧ (∃ t, r ++ t = first ++ rest.flatten) := by
  obtain ⟨r, h1, hlen, hext, hsub⟩ :=
    recvLoop_complete rest first (unpack16 first) hav
  refine ⟨r, ?_, hlen, hext, hsub⟩
  simp only [send_tcp, List.headD_cons, List.tail_cons]
  rw [if_neg (by omega)]
  exact congrArg (Prod.mk data) h1

/-- Instance of `send_tcp_reassembles` on the spec's concrete scenario 3:
a 602-byte response (2-byte prefix declaring 600, then twice 300 payload
bytes) delivered across three partial reads is reassembled before
returning. -/
theorem send_tcp_reassembles_w :
    ∃ r, send_tcp [9, 9] [[2, 88], List.replicate 300 7, List.replicate 300 7]
        = ([9, 9], .ok r)
      ∧ unpack16 [2, 88] + 2 ≤ r.length
      ∧ (∃ t, [2, 88] ++ t = r)
      ∧ (∃ t, r ++ t =
          [2, 88] ++ ([List.replicate 300 7, List.replicate 300 7] :
            List (List Nat)).flatten) :=
  send_tcp_reassembles [9, 9] [2, 88] [List.replicate 300 7, List.replicate 300 7]
    (by decide)
    (by
      simp only [unpack16, List.map_cons, List.map_nil, List.length_replicate,
        List.sum_cons, List.sum_nil, List.getD, List.length_cons, List.length_nil]
      norm_num)

/-- C9: the specification says `send_tcp` reads repeatedly until at least
`2 + declaredLength` bytes have been received, with partial reads
accumulated in a loop and no single read assumed to return the whole
message.  The code instead unpacks the length from `response[:2]` right
after the first `recv`; when that read returns fewer than two bytes — the
length prefix itself split across reads — `struct.unpack` raises
`struct.error` and nothing is accumulated.  Here a 7-byte framed response
(prefix `[0, 5]` declaring 5 payload bytes) is delivered as a 1-byte read
`[0]` followed by `[5, 7, 7, 7, 7, 7]`: the bytes suffice, yet `send_tcp`
fails instead of reassembling.  With the full prefix in the first read the
loop does accumulate as claimed (`send_tcp_reassembles`). -/
theorem send_tcp_split_prefix_fault :
    (send_tcp [9] [[0], [5, 7, 7, 7, 7, 7]]).2 = .structFault
    ∧ ¬ ∃ r, (send_tcp [9] [[0], [5, 7, 7, 7, 7, 7]]).2 = .ok r := by
  refine ⟨by decide, ?_⟩
  rintro ⟨r, hr⟩
  rw [(by decide :
    (send_tcp [9] [[0], [5, 7, 7, 7, 7, 7]]).2 = TCPOutcome.structFault)] at hr
  cases hr

end Proxy

namespace Proxy

/-- Counterexample for C6: the claim says `send_tcp` itself writes a
2-byte big-endian length prefix followed by `requestBytes`.  At
`requestBytes = [1, 2, 3]` the bytes written are `[1, 2, 3]` — `sock.sendall(data)`
writes its argument unchanged — not `pack16 3 ++ [1, 2, 3]`. -/
theorem send_tcp_no_prefix_cex :
    ¬ ((send_tcp [1, 2, 3] [[0, 1, 9]]).1
        = pack16 ([1, 2, 3] : List Nat).length ++ [1, 2, 3]) := by
  decide

/-- C6 (amended): `send_tcp` writes exactly the bytes it is given; the
2-byte big-endian length prefix is prepended by its caller — in
passthrough TCP mode `PassthroughDNSHandler.get_reply` sends
`struct.pack("!H", len(data)) + data` through `send_tcp`, so the bytes on
the wire are the prefix followed by the client's raw bytes. -/
theorem send_tcp_caller_adds_prefix
    (data : List Nat) (chunks u t : List (List Nat)) (req : Msg)
    (hreq : parse data = some req) :
    (send_tcp data chunks).1 = data
    ∧ (get_reply data .tcp u t).sentUpstream
        = some (pack16 data.length ++ data) := by
  refine ⟨rfl, ?_⟩
  simp only [get_reply, hreq]
  cases h : (send_tcp (pack16 data.length ++ data) t).2 <;>
    simp [h, send_tcp]
  cases hp : parse _ <;> simp [hp]

/-- Witness for C6 (amended): a 12-byte all-zero query in TCP passthrough
mode goes out as `[0, 12]` followed by the original twelve bytes. -/
theorem send_tcp_caller_adds_prefix_w :
    (send_tcp (List.replicate 12 0) [] ).1 = List.replicate 12 0
    ∧ (get_reply (List.replicate 12 0) .tcp [] []).sentUpstream
        = some (pack16 (List.replicate 12 0 : List Nat).length
            ++ List.replicate 12 0) :=
  send_tcp_caller_adds_prefix (List.replicate 12 0) [] [] []
    ⟨0, 0, [], []⟩ (by decide)

/-- C7: the specification says `send_udp` fails with `TransportTimeout`
when no reply datagram arrives within the configured timeout, and performs
at most one receive call.  The single-receive part holds, but the code
never configures a socket timeout (`settimeout` is absent), so with no
incoming datagram the blocking `recvfrom` hangs forever instead of raising
`socket.timeout`: the `timeout` outcome is unreachable. -/
theorem send_udp_never_times_out (data : List Nat)
    (incoming : List (List Nat)) :
    (send_udp data []).outcome = .block
    ∧ (send_udp data incoming).outcome ≠ .timeout
    ∧ (send_udp data incoming).recvCalls ≤ 1 := by
  refine ⟨rfl, ?_, ?_⟩
  all_goals cases incoming <;> simp [send_udp]

end Proxy

/-! ## Claim theorems: ProxyResolver.resolve -/

namespace Proxy

/-- C1: Whenever `ProxyResolver.resolve` returns a reply — parsed from
upstream's bytes or synthesized via `request.reply()` after a timeout — it
carries the request's transaction id, given that upstream echoes the
client's id in its response (the code performs no id check of its own;
the spec relies on upstream echoing the id, which standard DNS servers
do). -/
theorem resolve_preserves_transaction_id
    (request : Msg) (proto : Transport) (rtUDP rtTCP : RoundTrip) (rep : Msg)
    (hecho : ∀ b m, pickRT proto rtUDP rtTCP = .ok b → parse b = some m →
      m.id = request.id)
    (hok : resolve request proto rtUDP rtTCP = .ok rep) :
    rep.id = request.id := by
  cases hrt : pickRT proto rtUDP rtTCP with
  | ok bytes =>
    cases hp : parse bytes with
    | none => simp [resolve, hrt, hp] at hok
    | some m =>
      simp only [resolve, hrt, hp, ResolveOutcome.ok.injEq] at hok
      exact hok ▸ hecho bytes m hrt hp
  | timeout =>
    simp only [resolve, hrt, ResolveOutcome.ok.injEq] at hok
    rw [← hok]
    rfl
  | socketFault => simp [resolve, hrt] at hok

/-- Witness for C1: a concrete request with id 17, upstream answering over
UDP with a response whose first two bytes encode the same id. -/
theorem resolve_preserves_transaction_id_w :
    (⟨17, 0, [], []⟩ : Msg).id = (⟨17, 0, [5], []⟩ : Msg).id :=
  resolve_preserves_transaction_id ⟨17, 0, [5], []⟩ .udp
    (.ok [0, 17, 0, 0, 0, 0, 0, 0, 0, 0, 0, 0]) .timeout ⟨17, 0, [], []⟩
    (by
      intro b m hb hm
      simp only [pickRT, RoundTrip.ok.injEq] at hb
      subst hb
      simp only [parse, unpack16] at hm
      rw [if_pos (by decide)] at hm
      cases hm
      rfl)
    (by decide)

/-- C2: `resolve` masks exactly the `socket.timeout` exception: on a
timeout it returns the synthesized reply `request.reply()` with response
code set to NXDOMAIN; any other socket fault propagates out of `resolve`
and is never turned into an NXDOMAIN reply; and when the round trip
returns bytes, the result is their parse (or a propagated parse error),
never a synthesized reply. -/
theorem resolve_timeout_masking
    (request : Msg) (proto : Transport) (rtUDP rtTCP : RoundTrip) :
    (pickRT proto rtUDP rtTCP = .timeout →
      resolve request proto rtUDP rtTCP = .ok (timeoutReply request)
        ∧ (timeoutReply request).rcode = NXDOMAIN)
    ∧ (pickRT proto rtUDP rtTCP = .socketFault →
      resolve request proto rtUDP rtTCP = .socketFault)
    ∧ (∀ b, pickRT proto rtUDP rtTCP = .ok b →
      resolve request proto rtUDP rtTCP =
        match parse b with
        | some m => .ok m
        | none => .parseFault) := by
  refine ⟨fun h => ⟨?_, rfl⟩, fun h => ?_, fun b h => ?_⟩ <;>
    simp [resolve, h]

/-- Witness for C2: a concrete request whose UDP round trip times out
yields the synthesized NXDOMAIN reply; one whose round trip raises a
non-timeout socket error propagates it. -/
theorem resolve_timeout_masking_w :
    (resolve ⟨17, 0, [5], []⟩ .udp .timeout .timeout
        = .ok (timeoutReply ⟨17, 0, [5], []⟩)
      ∧ (timeoutReply ⟨17, 0, [5], []⟩).rcode = NXDOMAIN)
    ∧ resolve ⟨17, 0, [5], []⟩ .udp .socketFault .timeout = .socketFault :=
  ⟨(resolve_timeout_masking ⟨17, 0, [5], []⟩ .udp .timeout .timeout).1 rfl,
    (resolve_timeout_masking ⟨17, 0, [5], []⟩ .udp .socketFault .timeout).2.1 rfl⟩

/-- C8: when the upstream round trip returns bytes that parse to a message
`m`, `resolve` returns exactly `m`, with no field mutated. -/
theorem resolve_returns_upstream_parse_unchanged
    (request : Msg) (proto : Transport) (rtUDP rtTCP : RoundTrip)
    (b : List Nat) (m : Msg)
    (hb : pickRT proto rtUDP rtTCP = .ok b) (hm : parse b = some m) :
    resolve request proto rtUDP rtTCP = .ok m := by
  simp [resolve, hb, hm]

/-- Witness for C8: a concrete 13-byte upstream response is parsed and
returned field-for-field. -/
theorem resolve_returns_upstream_parse_unchanged_w :
    resolve ⟨17, 0, [5], []⟩ .tcp .timeout
        (.ok [0, 17, 0, 3, 0, 0, 0, 0, 0, 0, 0, 0, 9])
      = .ok ⟨17, 3, [9], []⟩ :=
  resolve_returns_upstream_parse_unchanged ⟨17, 0, [5], []⟩ .tcp .timeout
    (.ok [0, 17, 0, 3, 0, 0, 0, 0, 0, 0, 0, 0, 9])
    [0, 17, 0, 3, 0, 0, 0, 0, 0, 0, 0, 0, 9] ⟨17, 3, [9], []⟩
    (by decide) (by decide)

end Proxy

/-! ## Claim theorems: PassthroughDNSHandler -/

namespace Proxy

/-- Decoding the 2-byte big-endian prefix recovers the encoded length. -/
theorem unpack16_pack16 (n : Nat) (r : List Nat) (h : n < 65536) :
    unpack16 (pack16 n ++ r) = n := by
  simp only [pack16, List.cons_append, List.nil_append, unpack16,
    List.getD_cons_zero, List.getD_cons_succ, Nat.mod_eq_of_lt h]
  omega

/-- When upstream delivers exactly one well-formed frame (2-byte prefix
plus payload) in a single read, `send_tcp` returns it whole. -/
theorem send_tcp_single_frame (data payload : List Nat)
    (h : payload.length < 65536) :
    send_tcp data [pack16 payload.length ++ payload]
      = (data, .ok (pack16 payload.length ++ payload)) := by
  simp only [send_tcp, List.headD_cons, List.tail_cons]
  rw [if_neg (by
    simp only [pack16, List.cons_append, List.nil_append, List.length_cons]
    omega)]
  unfold recvLoop
  rw [unpack16_pack16 payload.length payload h,
    if_pos (by
      simp only [pack16, List.cons_append, List.nil_append, List.length_cons]
      omega)]

/-- C3: in passthrough mode the bytes returned to the client are
byte-for-byte the payload upstream returned — the UDP datagram unchanged,
or upstream's TCP response with exactly its leading 2-byte prefix
removed — and the bytes forwarded upstream are the client's original raw
bytes, for TCP with a 2-byte big-endian prefix of `len(data)` prepended;
no re-encoded message is involved on either side. -/
theorem passthrough_byte_for_byte
    (data payload : List Nat) (req rep : Msg)
    (rest u t : List (List Nat))
    (hreq : parse data = some req) (hrep : parse payload = some rep)
    (hlen : payload.length < 65536) :
    get_reply data .udp (payload :: rest) t = ⟨some data, .ok payload⟩
    ∧ get_reply data .tcp u [pack16 payload.length ++ payload]
        = ⟨some (pack16 data.length ++ data), .ok payload⟩ := by
  constructor
  · simp [get_reply, hreq, send_udp, hrep]
  · have hdrop : (pack16 payload.length ++ payload).drop 2 = payload := by
      simp [pack16]
    simp [get_reply, hreq,
      send_tcp_single_frame (pack16 data.length ++ data) payload hlen,
      hdrop, hrep]

/-- Witness for C3: a 12-byte all-zero query relayed over both transports
against a 12-byte all-ones upstream payload. -/
theorem passthrough_byte_for_byte_w :
    get_reply (List.replicate 12 0) .udp [List.replicate 12 1] []
        = ⟨some (List.replicate 12 0), .ok (List.replicate 12 1)⟩
    ∧ get_reply (List.replicate 12 0) .tcp []
          [pack16 (List.replicate 12 1 : List Nat).length ++ List.replicate 12 1]
        = ⟨some (pack16 (List.replicate 12 0 : List Nat).length
            ++ List.replicate 12 0), .ok (List.replicate 12 1)⟩ :=
  passthrough_byte_for_byte (List.replicate 12 0) (List.replicate 12 1)
    ⟨0, 0, [], []⟩ ⟨257, 1, [], []⟩ [] [] []
    (by decide) (by decide) (by decide)

/-- Counterexample for C5: with malformed inbound bytes — the empty byte
string, which fails parsing — the claim predicts the handler still
forwards the raw bytes upstream and still returns upstream's datagram;
in the code `DNSRecord.parse(data)` raises before anything is sent, so
nothing is forwarded and no reply is produced. -/
theorem passthrough_parse_fault_cex :
    ¬ ((get_reply [] .udp [List.replicate 12 1] []).sentUpstream = some []
      ∧ (get_reply [] .udp [List.replicate 12 1] []).result
          = .ok (List.replicate 12 1)) := by
  decide

/-- C5 (amended): in passthrough mode parsing sits on the main path, not
only in the logging step: a parse failure on the inbound client bytes
propagates out of `get_reply` before anything is forwarded upstream (on
either transport), and a parse failure on upstream's reply bytes — the
received datagram on UDP, the received stream minus its 2-byte prefix on
TCP — propagates after the forward, so the raw response is not returned
to the client. -/
theorem passthrough_parse_fault_aborts
    (data response : List Nat) (proto : Transport)
    (u t rest : List (List Nat)) (req : Msg) :
    (parse data = none → get_reply data proto u t = ⟨none, .requestParseFault⟩)
    ∧ (parse data = some req → parse response = none →
        get_reply data .udp (response :: rest) t
          = ⟨some data, .replyParseFault⟩)
    ∧ (∀ resp, parse data = some req →
        (send_tcp (pack16 data.length ++ data) t).2 = .ok resp →
        parse (resp.drop 2) = none →
        get_reply data .tcp u t
          = ⟨some (pack16 data.length ++ data), .replyParseFault⟩) := by
  refine ⟨?_, ?_, ?_⟩
  · intro h
    cases proto <;> simp [get_reply, h]
  · intro h1 h2
    simp [get_reply, h1, send_udp, h2]
  · intro resp h1 h2 h3
    simp only [get_reply, h1, h2, h3, send_tcp_sent]

/-- Witness for C5 (amended): the empty inbound byte string aborts before
the send on UDP; a well-formed query whose upstream reply fails parsing
aborts after the send, on UDP (a one-byte datagram) and on TCP (a frame
whose one-byte payload is unparsable). -/
theorem passthrough_parse_fault_aborts_w :
    get_reply [] .udp [] [] = ⟨none, .requestParseFault⟩
    ∧ get_reply (List.replicate 12 0) .udp [[1]] []
        = ⟨some (List.replicate 12 0), .replyParseFault⟩
    ∧ get_reply (List.replicate 12 0) .tcp [] [[0, 1, 1]]
        = ⟨some (pack16 (List.replicate 12 0 : List Nat).length
            ++ List.replicate 12 0), .replyParseFault⟩ :=
  ⟨(passthrough_parse_fault_aborts [] [1] .udp [] [] [] ⟨0, 0, [], []⟩).1
      (by decide),
    (passthrough_parse_fault_aborts (List.replicate 12 0) [1] .udp [] [] []
      ⟨0, 0, [], []⟩).2.1 (by decide) (by decide),
    (passthrough_parse_fault_aborts (List.replicate 12 0) [1] .tcp []
      [[0, 1, 1]] [] ⟨0, 0, [], []⟩).2.2 [0, 1, 1]
      (by decide) (by decide) (by decide)⟩

end Proxy

/-! ## Claim theorems: Bimap -/

/-- A successful first-match lookup finds an entry of the list. -/
theorem dictLookup_mem {α β : Type} [DecidableEq α] :
    ∀ (l : List (α × β)) (k : α) (v : β),
    dictLookup l k = some v → (k, v) ∈ l := by
  intro l
  induction l with
  | nil => intro k v h; cases h
  | cons p t ih =>
    obtain ⟨a, b⟩ := p
    intro k v h
    simp only [dictLookup] at h
    by_cases hk : k = a
    · rw [if_pos hk] at h
      cases h
      exact hk ▸ List.mem_cons_self _ _
    · rw [if_neg hk] at h
      exact List.mem_cons_of_mem _ (ih k v h)

/-- With pairwise-distinct second components, a forward first-match lookup
is inverted by looking up the found value in the component-swapped list —
the content of Python's `{v: k for k, v in forward.items()}` comprehension. -/
theorem dictLookup_swap {α β : Type} [DecidableEq α] [DecidableEq β]
    (l : List (α × β)) (hv : (l.map Prod.snd).Nodup) :
    ∀ (k : α) (v : β), dictLookup l k = some v →
      dictLookup (l.map (fun p => (p.2, p.1))) v = some k := by
  induction l with
  | nil => intro k v h; cases h
  | cons p t ih =>
    obtain ⟨a, b⟩ := p
    simp only [List.map_cons, List.nodup_cons] at hv
    obtain ⟨hb, ht⟩ := hv
    intro k v h
    simp only [dictLookup] at h ⊢
    by_cases hk : k = a
    · rw [if_pos hk] at h
      cases h
      rw [if_pos rfl, hk]
    · rw [if_neg hk] at h
      have hvmem : v ∈ t.map Prod.snd :=
        List.mem_map_of_mem Prod.snd (dictLookup_mem t k v h)
      by_cases hvb : v = b
      · exact absurd (hvb ▸ hvmem) hb
      · rw [if_neg hvb]
        exact ih ht k v h

/-- Swapping components twice is the identity. -/
theorem map_swap_swap {α β : Type} (l : List (α × β)) :
    (l.map (fun p => (p.2, p.1))).map (fun p => (p.2, p.1)) = l := by
  induction l with
  | nil => rfl
  | cons p t ih => simp [ih]

/-- The second components of the swapped list are the first components of
the original. -/
theorem map_snd_map_swap {α β : Type} (l : List (α × β)) :
    (l.map (fun p => (p.2, p.1))).map Prod.snd = l.map Prod.fst := by
  simp [List.map_map]

/-- C10: for a `Bimap` built from a forward dict with pairwise-distinct
values (keys are distinct in any dict), the forward lookup `bimap[k]` and
the reverse attribute lookup invert each other: `bimap[k] = v` exactly
when the reverse lookup of `v` gives `k`. -/
theorem bimap_round_trip (name : String) (fwd : List (Nat × String))
    (hk : (fwd.map Prod.fst).Nodup) (hv : (fwd.map Prod.snd).Nodup)
    (k : Nat) (v : String) :
    ((Bimap.build name fwd).getitem k = some v →
      (Bimap.build name fwd).getattr v = some k)
    ∧ ((Bimap.build name fwd).getattr v = some k →
      (Bimap.build name fwd).getitem k = some v) := by
  constructor
  · intro h
    exact dictLookup_swap fwd hv k v h
  · intro h
    simp only [Bimap.getattr, Bimap.build] at h
    have hv' : ((fwd.map (fun p => (p.2, p.1))).map Prod.snd).Nodup := by
      rw [map_snd_map_swap]
      exact hk
    have h2 := dictLookup_swap (fwd.map (fun p => (p.2, p.1))) hv' v k h
    rw [map_swap_swap] at h2
    exact h2

/-- Witness for C10: the doctest table `{1: 'A', 2: 'B', 3: 'C'}` of
`bimap.py` round-trips in both directions. -/
theorem bimap_round_trip_w :
    ((Bimap.build "TEST" [(1, "A"), (2, "B"), (3, "C")]).getattr "A" = some 1)
    ∧ ((Bimap.build "TEST" [(1, "A"), (2, "B"), (3, "C")]).getitem 2 = some "B") :=
  ⟨(bimap_round_trip "TEST" [(1, "A"), (2, "B"), (3, "C")]
      (by decide) (by decide) 1 "A").1 (by decide),
    (bimap_round_trip "TEST" [(1, "A"), (2, "B"), (3, "C")]
      (by decide) (by decide) 2 "B").2 (by decide)⟩
